import Mathlib

/-
Shallow embedding of the conda environment resolution and provisioning logic of
kedro/framework/cli/project.py: the helper functions `_run_conda_cmd` (registry
read), `_ask` (interactive chooser) and `_conda_install` (spec load, candidate
matching, resolution, provisioning, spec write-back).

A central fact of the source shapes the whole model: `_run_conda_cmd`
(lines 102-105) runs `subprocess.run(['conda', *args, '--json', '-q'],
**run_kwargs)` and its only call site, `_conda_install` line 144, passes no
kwargs, so stdout is not captured and `proc.stdout` is None; the very next
expression `json.loads(proc.stdout)` therefore raises TypeError (the JSON
module rejects None) on every call, before the returncode is ever inspected.
Consequently every run of `_conda_install` that reaches the registry query
dies with an uncaught TypeError (or FileNotFoundError when the conda binary
is absent, raised by subprocess.run itself), and lines 145-190 — the
returncode check and its fixed error message, all matching and resolution,
the provisioning invocations and the spec write-back — are unreachable.
The installed-environment set itself is never observable by the program (the
registry listing goes to the inherited stdout, not to the process), so it has
no field in the model's `World`.

A run of `_conda_install` on one spec file produces an ordered trace of
observable events (registry query attempt, operator prompt, provisioning
invocation, spec-file rewrite) together with a terminal outcome (normal
return, `sys.exit(1)` with a message, or an uncaught Python exception).
-/

set_option autoImplicit false

namespace Kedro

/-- Value of one key of the parsed YAML spec mapping: either a string scalar,
or any non-scalar YAML value (e.g. a dependency list), opaque to the conda
logic. -/
inductive CfgVal where
  | s (v : String)
  | other (vs : List String)
deriving DecidableEq

/-- The parsed spec file: an ordered mapping (Python dict) from keys to values,
as produced by `anyconfig.load(config_path, ac_parser=yaml)`. -/
abbrev Cfg := List (String × CfgVal)

/-- The external world one run of `_conda_install` observes: the module
globals PROJ_NAME and DEFAULT_CONDA_PREFIX (the latter named
DEFAULT_CONDA_PFX here; both are in fact unbound names in the source, modelled
as given values), whether the conda binary is missing (subprocess.run then
raises FileNotFoundError), the exit status of `conda env list` (never
consulted by the program: json.loads raises first), and the queued operator
inputs (never consumed: all prompt sites are unreachable). -/
structure World where
  PROJ_NAME : String
  DEFAULT_CONDA_PFX : String
  condaMissing : Bool
  listRet : Nat
  inputs : List String

/-- Observable events of one run, in order. `regQuery` marks the attempt to
invoke the `conda env list --json -q` subprocess at line 144. -/
inductive Event where
  | regQuery
  | prompt (msg : String)
  | provision (cmd : List String)
  | specWrite (newCfg : Cfg)
deriving DecidableEq

/-- Terminal outcome of one run: normal return, `sys.exit(1)` after a secho
error message, or an uncaught Python exception. -/
inductive Outcome where
  | ok
  | exit1 (msg : String)
  | exn (msg : String)
deriving DecidableEq

/-- Message secho-ed before `sys.exit(1)` on an empty parsed spec (source
line 138; the apostrophe of the original text is omitted here). -/
def emptyCfgErrMsg : String :=
  "Error: Cant parse or empty conda environment file"

/-- Uncaught exception when `anyconfig.load` rejects a malformed file. -/
def yamlParseErrMsg : String := "yaml.parser.ParserError"

/-- Uncaught TypeError raised by `json.loads(proc.stdout)` at line 105:
stdout was never captured, so `proc.stdout` is None and the JSON module
rejects it. This happens on every registry read, whatever the exit status. -/
def typeErrorMsg : String :=
  "TypeError: the JSON object must be str, bytes or bytearray, not NoneType"

/-- Uncaught exception from `subprocess.run` when the conda binary is
absent. -/
def fileNotFoundErrMsg : String := "FileNotFoundError"

/-- The `conda env update` command line constructed at source line 172 (code
that is unreachable: no run survives the registry read). -/
def updateCmd (px nm file : String) : List String :=
  ["conda", "env", "update", "--prefix", px, "--name", nm, "--file", file, "--prune", "--json", "-q"]

/-- The `conda env create` command line constructed at source line 176 (code
that is unreachable: no run survives the registry read). -/
def createCmd (px nm file : String) : List String :=
  ["conda", "env", "create", "--prefix", px, "--name", nm, "--file", file, "--json", "-q"]

/-- One pass of `_conda_install` over an existing spec file, source lines
134-190. `parsed` is the `anyconfig.load` result: `none` when the parser
raises on a malformed file, `some cfg` otherwise (an empty document is the
empty mapping, rejected at line 137 before anything else). A run that
survives the parse checks reaches `_run_conda_cmd(env, list)` at line 144:
subprocess.run either raises FileNotFoundError (conda missing) or runs the
listing with uncaptured stdout, after which `json.loads(None)` raises
TypeError unconditionally. Lines 145-190 (returncode check, matching,
prompting, provisioning, write-back) are unreachable, so no prompt,
provision or spec-write event can ever occur past this point. -/
def condaInstallFile (_p : String) (w : World) (parsed : Option Cfg) : List Event × Outcome :=
  match parsed with
  | none => ([], Outcome.exn yamlParseErrMsg)
  | some cfg =>
    if cfg.isEmpty then ([], Outcome.exit1 emptyCfgErrMsg)
    else if w.condaMissing then ([Event.regQuery], Outcome.exn fileNotFoundErrMsg)
    else ([Event.regQuery], Outcome.exn typeErrorMsg)

/-- Unicode decimal-digit (category Nd) value of a character, on a
representative set: the ASCII digits and, standing for the non-ASCII decimal
digits that Python's `int()` accepts, the Arabic-Indic digits U+0660..U+0669
(so `int` of U+0663 is 3). -/
def decDigitVal? (c : Char) : Option Nat :=
  if 0x30 ≤ c.toNat && c.toNat ≤ 0x39 then some (c.toNat - 0x30)
  else if 0x660 ≤ c.toNat && c.toNat ≤ 0x669 then some (c.toNat - 0x660)
  else none

/-- Characters with the Unicode digit property that are not decimal digits:
`str.isdigit` accepts them but `int()` raises ValueError on them.
Representative set: the superscripts one, two, three (U+00B9, U+00B2,
U+00B3). -/
def nonDecDigitChar (c : Char) : Bool :=
  c.toNat == 0xB9 || c.toNat == 0xB2 || c.toNat == 0xB3

/-- Python `str.isdigit` on one character: true for decimal digits and for
the digit-property non-decimals. -/
def pyIsDigitChar (c : Char) : Bool :=
  (decDigitVal? c).isSome || nonDecDigitChar c

/-- Python `str.isdigit`: non-empty and every character digit-like. -/
def pyStrIsDigit (s : String) : Bool :=
  !s.toList.isEmpty && s.toList.all pyIsDigitChar

/-- Accumulate the decimal value of a character sequence; `none` as soon as a
character has no decimal-digit value. -/
def digitsVal (cs : List Char) (acc : Nat) : Option Nat :=
  match cs with
  | [] => some acc
  | c :: rest =>
    match decDigitVal? c with
    | some d => digitsVal rest (acc * 10 + d)
    | none => none

/-- Python `int()` on a string that passed `isdigit`: defined exactly when
every character is a decimal digit (mixed scripts allowed); on the
digit-property non-decimals (such as the superscript two) `int()` raises
ValueError instead. -/
def pyIntOfDigits? (s : String) : Option Nat :=
  digitsVal s.toList 0

/-- Result of the index-mode loop of `_ask`: a validated answer with the
unconsumed inputs, an uncaught ValueError from `int()` (a response that is
isdigit-true but not decimal), or an uncaught EOFError when the input stream
is exhausted. -/
inductive AskResult (α : Type) where
  | ans (i : Nat) (x : α) (rest : List String)
  | valueError
  | eof
deriving DecidableEq

/-- The index-mode loop of `_ask` (`ask_indexes=True`, source lines 120-122):
`while not choice.isdigit() or int(choice) not in range(len(choices))` reads
again on a non-digit response (the short-circuit keeps `int` from running)
and on an out-of-range decimal response, but a digit-property response that
`int()` cannot parse raises ValueError out of the loop; a valid response
returns `(int(choice), choices[int(choice)])`. -/
def askIndexLoop {α : Type} (choices : List α) : List String → AskResult α
  | [] => AskResult.eof
  | c :: rest =>
    if pyStrIsDigit c then
      match pyIntOfDigits? c with
      | none => AskResult.valueError
      | some n =>
        if h : n < choices.length then AskResult.ans n (choices.get ⟨n, h⟩) rest
        else askIndexLoop choices rest
    else askIndexLoop choices rest

/-- Claim C1 (code bug): with a spec declaring only a prefix that is exactly
an installed environment's prefix, the claim (and the command's own help
text) say resolution yields Update with that identity. The program instead
dies with an uncaught TypeError at the registry read — stdout is never
captured, so `json.loads(None)` raises before any matching runs — and
neither an update nor a create nor a write-back ever occurs, as the
single-event trace shows. -/
theorem c1_registry_read_dies_before_matching :
    condaInstallFile "environment.yml"
        (⟨"proj", "/conda/envs", false, 0, []⟩ : World)
        (some [("prefix", CfgVal.s "/opt/envs/proj")]) =
      ([Event.regQuery], Outcome.exn typeErrorMsg) := by decide

/-- Claim C2 (code bug): the claimed idempotence (second run yields Update
with the identical identity after the first run's write-back) cannot occur:
the first run dies with TypeError at the registry read and never writes name
or prefix back (no spec-write event exists in its trace), and even a run on
a spec that already carries the filled-in identity dies identically — no run
ever yields Update. Both runs are evaluated here. -/
theorem c2_no_second_run_update :
    condaInstallFile "environment.yml"
        (⟨"proj", "/conda/envs", false, 0, []⟩ : World)
        (some [("prefix", CfgVal.s "/opt/envs/proj")]) =
      ([Event.regQuery], Outcome.exn typeErrorMsg) ∧
    condaInstallFile "environment.yml"
        (⟨"proj", "/conda/envs", false, 0, []⟩ : World)
        (some [("prefix", CfgVal.s "/opt/envs/proj"), ("name", CfgVal.s "proj")]) =
      ([Event.regQuery], Outcome.exn typeErrorMsg) := by decide

/-- Claim C3 (code bug): with no prefix and a name matching exactly one
installed environment, the claim says a binary reuse/create prompt is issued
(Y updates, N creates). The program issues no prompt: it dies with TypeError
at the registry read before line 150, leaving the queued answer N unconsumed
and producing neither Update nor Create, as the single-event trace shows.
(The prompting branch is twice dead: even past the registry read, its
line-155 guard `any(matching_envs) and not conda_cfg` tests the truthiness of
the whole parsed mapping, always truthy since empty mappings exited at
line 139.) -/
theorem c3_single_name_match_never_prompts :
    condaInstallFile "environment.yml"
        (⟨"x", "/conda/envs", false, 0, ["N"]⟩ : World)
        (some [("name", CfgVal.s "proj")]) =
      ([Event.regQuery], Outcome.exn typeErrorMsg) := by decide

/-- Claim C4 (code bug): the claimed write-back discipline (rewrite only
after provisioning succeeds, preserving the other keys and their order) is
never exercised: no run of `_conda_install`, on any spec and any world, ever
emits a spec-write event — every run either fails its parse checks or dies at
the registry read, before provisioning and before the line-185 dump. (The
dump itself, were it reachable, would hand the mapping to PyYAML, whose
default dumper sorts mapping keys alphabetically, not in original order.) -/
theorem c4_spec_never_rewritten (p : String) (w : World) (parsed : Option Cfg) (c : Cfg) :
    Event.specWrite c ∉ (condaInstallFile p w parsed).1 := by
  intro hmem
  match parsed with
  | none => simp [condaInstallFile] at hmem
  | some cfg =>
    cases cfg with
    | nil => simp [condaInstallFile] at hmem
    | cons a t =>
      by_cases hc : w.condaMissing <;> simp [condaInstallFile, hc] at hmem

/-- Witness for C4 at a concrete run. -/
theorem c4_spec_never_rewritten_witness :
    Event.specWrite [("name", CfgVal.s "proj"), ("prefix", CfgVal.s "/conda/envs")] ∉
      (condaInstallFile "environment.yml"
        (⟨"proj", "/conda/envs", false, 0, []⟩ : World)
        (some [("dependencies", CfgVal.other ["pandas"]),
          ("prefix", CfgVal.s "/opt/envs/proj")])).1 :=
  c4_spec_never_rewritten "environment.yml"
    (⟨"proj", "/conda/envs", false, 0, []⟩ : World)
    (some [("dependencies", CfgVal.other ["pandas"]),
      ("prefix", CfgVal.s "/opt/envs/proj")])
    [("name", CfgVal.s "proj"), ("prefix", CfgVal.s "/conda/envs")]

/-- Claim C5 (code bug): the claim says a failed registry listing is reported
with the exit status in the message and provisioning is withheld. Withheld it
is, but not as described: for every exit status of `conda env list` (the
`World` is universally quantified, so in particular for status 2) and for any
output, the run dies with the uncaught TypeError from `json.loads(None)` —
stdout is never captured — before the line-145 returncode check; the fixed
line-146 message and its `sys.exit(1)` are dead code and no exit status is
ever reported anywhere. -/
theorem c5_registry_read_always_raises (p : String) (w : World) (cfg : Cfg)
    (hne : cfg ≠ []) (hc : w.condaMissing = false) :
    condaInstallFile p w (some cfg) = ([Event.regQuery], Outcome.exn typeErrorMsg) := by
  cases cfg with
  | nil => exact absurd rfl hne
  | cons a t => simp [condaInstallFile, hc]

/-- Witness for C5 at exit status 2. -/
theorem c5_registry_read_always_raises_witness :
    condaInstallFile "environment.yml"
        (⟨"proj", "/conda/envs", false, 2, []⟩ : World)
        (some [("prefix", CfgVal.s "/opt/envs/proj")]) =
      ([Event.regQuery], Outcome.exn typeErrorMsg) :=
  c5_registry_read_always_raises "environment.yml"
    (⟨"proj", "/conda/envs", false, 2, []⟩ : World)
    [("prefix", CfgVal.s "/opt/envs/proj")] (by decide) (by decide)

/-- Claim C6: a spec file that fails to parse (`parsed = none`: the YAML
parser raises) or parses to an empty document aborts with a parse error and an
empty event trace — in particular before any registry query subprocess and
before any operator prompt. -/
theorem c6_bad_spec_aborts_before_registry (p : String) (w : World) (parsed : Option Cfg)
    (h : parsed = none ∨ parsed = some []) :
    condaInstallFile p w parsed = ([], Outcome.exn yamlParseErrMsg) ∨
    condaInstallFile p w parsed = ([], Outcome.exit1 emptyCfgErrMsg) := by
  rcases h with rfl | rfl
  · exact Or.inl rfl
  · exact Or.inr (by simp [condaInstallFile])

/-- Witness for C6 on the malformed-file case. -/
theorem c6_bad_spec_aborts_before_registry_witness :
    condaInstallFile "environment.yml"
        (⟨"proj", "/conda/envs", false, 0, []⟩ : World) none =
      ([], Outcome.exn yamlParseErrMsg) ∨
    condaInstallFile "environment.yml"
        (⟨"proj", "/conda/envs", false, 0, []⟩ : World) none =
      ([], Outcome.exit1 emptyCfgErrMsg) :=
  c6_bad_spec_aborts_before_registry "environment.yml"
    (⟨"proj", "/conda/envs", false, 0, []⟩ : World) none (Or.inl rfl)

/-- Counterexample to claim C7 as stated: for the spec with name proj_env and
prefix /opt/envs/proj_env (the registry state is irrelevant: the program
never observes it), the claimed `conda env update ... --prune` invocation is
never issued — no provisioning invocation of any kind occurs: the run dies
with TypeError at the registry read and its trace holds the query attempt
only. -/
theorem c7_counterexample :
    condaInstallFile "environment.yml"
        (⟨"x", "/conda/envs", false, 0, []⟩ : World)
        (some [("name", CfgVal.s "proj_env"), ("prefix", CfgVal.s "/opt/envs/proj_env")]) =
      ([Event.regQuery], Outcome.exn typeErrorMsg) ∧
    Event.provision (updateCmd "/opt/envs/proj_env" "proj_env" "environment.yml") ∉
      (condaInstallFile "environment.yml"
        (⟨"x", "/conda/envs", false, 0, []⟩ : World)
        (some [("name", CfgVal.s "proj_env"),
          ("prefix", CfgVal.s "/opt/envs/proj_env")])).1 := by decide

/-- Claim C7 as amended: the command lines constructed by the (unreachable)
provisioning lines 172 and 176 do both supply --name and --prefix explicitly,
with --prune present on the update line and absent from the create line; but
for the claim's concrete spec no provisioning invocation is issued at all —
the run aborts with an uncaught TypeError at the registry read, so in
particular no `env update ... --prune` occurs. -/
theorem c7_flags_contract :
    ("--name" ∈ updateCmd "/opt/envs/proj_env" "proj_env" "environment.yml" ∧
      "--prefix" ∈ updateCmd "/opt/envs/proj_env" "proj_env" "environment.yml" ∧
      "--prune" ∈ updateCmd "/opt/envs/proj_env" "proj_env" "environment.yml") ∧
    ("--name" ∈ createCmd "/opt/envs/proj_env" "proj_env" "environment.yml" ∧
      "--prefix" ∈ createCmd "/opt/envs/proj_env" "proj_env" "environment.yml" ∧
      "--prune" ∉ createCmd "/opt/envs/proj_env" "proj_env" "environment.yml") ∧
    condaInstallFile "environment.yml"
        (⟨"x", "/conda/envs", false, 0, []⟩ : World)
        (some [("name", CfgVal.s "proj_env"), ("prefix", CfgVal.s "/opt/envs/proj_env")]) =
      ([Event.regQuery], Outcome.exn typeErrorMsg) := by decide

/-- Counterexample to claim C8 as stated: the superscript two passes Python's
`isdigit()` but `int()` raises ValueError on it, so the chooser loop crashes
instead of re-prompting — the queued valid answer 0 behind it is never read —
falsifying that every out-of-range or non-numeric response is re-prompted
rather than treated as a failure. -/
theorem c8_counterexample :
    askIndexLoop [["a"]] ["²"] = AskResult.valueError ∧
    askIndexLoop [["a"]] ["²", "0"] = AskResult.valueError ∧
    askIndexLoop [["a"]] ["0"] = AskResult.ans 0 ["a"] [] := by decide

/-- Claim C8 as amended: the index-mode chooser loop of `_ask` re-reads on
every response that is not a digit string and on every decimal response whose
index is out of range; a digit-property response that is not decimal (such as
the superscript two) raises an uncaught ValueError instead of re-prompting;
and whenever the loop returns an answer, the returned index is a valid
0-based index into the choices and the returned element is the choice at that
index, so callers never receive an invalid answer. -/
theorem c8_ask_index_validated :
    (∀ (choices : List (List String)) (c : String) (rest : List String),
        pyStrIsDigit c = false →
        askIndexLoop choices (c :: rest) = askIndexLoop choices rest) ∧
    (∀ (choices : List (List String)) (c : String) (rest : List String) (n : Nat),
        pyIntOfDigits? c = some n → choices.length ≤ n →
        askIndexLoop choices (c :: rest) = askIndexLoop choices rest) ∧
    (∀ (choices : List (List String)) (ins : List String) (n : Nat) (x : List String)
        (rest : List String),
        askIndexLoop choices ins = AskResult.ans n x rest → choices[n]? = some x) := by
  refine ⟨?_, ?_, ?_⟩
  · intro choices c rest h
    simp [askIndexLoop, h]
  · intro choices c rest n hint hlen
    by_cases hd : pyStrIsDigit c
    · have hnl : ¬ n < choices.length := Nat.not_lt.mpr hlen
      simp [askIndexLoop, hd, hint, hnl]
    · simp [askIndexLoop, hd]
  · intro choices ins
    induction ins with
    | nil =>
      intro n x rest h
      simp [askIndexLoop] at h
    | cons c tl ih =>
      intro n x rest h
      by_cases hd : pyStrIsDigit c
      · cases hint : pyIntOfDigits? c with
        | none => simp [askIndexLoop, hd, hint] at h
        | some m =>
          simp only [askIndexLoop, hd, if_true, hint] at h
          by_cases hm : m < choices.length
          · rw [dif_pos hm] at h
            simp only [AskResult.ans.injEq] at h
            obtain ⟨hn, hx, hr⟩ := h
            subst hn
            rw [List.getElem?_eq_getElem hm, ← hx]
            simp [List.get_eq_getElem]
          · rw [dif_neg hm] at h
            exact ih n x rest h
      · simp only [askIndexLoop, hd, Bool.false_eq_true, if_false] at h
        exact ih n x rest h

/-- Witness for C8 (amended): a non-digit response and an out-of-range
decimal response are both skipped, and a returned answer is the element at
the returned index. -/
theorem c8_ask_index_validated_witness :
    askIndexLoop [["a"], ["b"]] ("no" :: ["1"]) = askIndexLoop [["a"], ["b"]] ["1"] ∧
    askIndexLoop [["a"], ["b"]] ("7" :: ["1"]) = askIndexLoop [["a"], ["b"]] ["1"] ∧
    [["a"], ["b"]][1]? = some ["b"] :=
  ⟨c8_ask_index_validated.1 [["a"], ["b"]] "no" ["1"] (by decide),
   c8_ask_index_validated.2.1 [["a"], ["b"]] "7" ["1"] 7 (by decide) (by decide),
   c8_ask_index_validated.2.2 [["a"], ["b"]] ["1"] 1 ["b"] [] (by decide)⟩

/-- Claim C9 (code bug): for a spec declaring neither name nor prefix against
an empty registry, the claim says resolution yields Create with the
project-derived default name under the default installation root, with no
prompt. No prompt indeed occurs, but no Create either: the run dies with the
uncaught TypeError at the registry read and the defaults of lines 141-142 are
never used to provision anything, as the single-event trace shows. -/
theorem c9_no_create_with_defaults :
    condaInstallFile "environment.yml"
        (⟨"proj", "/conda/envs", false, 0, []⟩ : World)
        (some [("dependencies", CfgVal.other ["pandas"])]) =
      ([Event.regQuery], Outcome.exn typeErrorMsg) := by decide

/-- Claim C10: whenever the parsed spec is a non-empty mapping, no run of the
conda-install flow ever issues an operator prompt, whatever the name and
prefix fields, the registry, or the queued operator inputs. The prompt sites
of lines 156-165 sit in the branch guarded by `not conda_cfg` (line 155),
false for every mapping that survived the line-137 emptiness check — and in
the program that whole region is further unreachable, since the registry read
at line 144 raises first; either way no prompt event can occur. -/
theorem c10_nonempty_cfg_never_prompts (p : String) (w : World) (cfg : Cfg)
    (hne : cfg ≠ []) (m : String) :
    Event.prompt m ∉ (condaInstallFile p w (some cfg)).1 := by
  intro hmem
  cases cfg with
  | nil => exact absurd rfl hne
  | cons a t =>
    by_cases hc : w.condaMissing <;> simp [condaInstallFile, hc] at hmem

/-- Witness for C10 at a concrete name-matching spec with a queued answer. -/
theorem c10_nonempty_cfg_never_prompts_witness :
    Event.prompt "Reuse existing conda environement? (Y/N)" ∉
      (condaInstallFile "environment.yml"
        (⟨"x", "/conda/envs", false, 0, ["N"]⟩ : World)
        (some [("name", CfgVal.s "proj")])).1 :=
  c10_nonempty_cfg_never_prompts "environment.yml"
    (⟨"x", "/conda/envs", false, 0, ["N"]⟩ : World)
    [("name", CfgVal.s "proj")] (by decide)
    "Reuse existing conda environement? (Y/N)"

end Kedro
